import Mathlib

/-!
Verification of `src/examples.py`, a script exercising a combinator-based
parsing library (pyparsing) on a tiny subset of C declaration syntax.

The combinators actually used by the script are shallowly embedded here as
a small expression type `PExpr` with an executable evaluator `parseAt`:
`Literal`, `Word`, `oneOf`, `QuotedString` (with an escape character),
`Suppress`, `setResultsName`, a float-converting parse action
(`setParseAction(lambda t: float(t[0]))`), `stringEnd`, sequencing (`+`)
and alternation (`|`).  `parseString` is modelled with its default
`parseAll=False` behaviour: each leaf element first skips the default
whitespace characters, and a successful match of a prefix of the input
is a success.  A parse failure produces a `ParseError` carrying the
description of what was expected and the character offset at which the
failure happened; line and column numbers are derived from the offset
exactly as the library derives them.  Python floats produced by the
parse action are modelled as rational numbers with exact decimal
semantics.
-/

namespace UsingPyparsing

/-- A token value in a parse result: either a matched string, or a number
produced by the float-converting parse action (modelled as a rational). -/
inductive Tok where
  | str (s : String)
  | num (q : ℚ)
  deriving Repr, DecidableEq

/-- One item of a parse result: a token together with its optional results
name (set by `setResultsName`). -/
abbrev ResultItem := Tok × Option String

/-- A parse result: the ordered list of produced tokens. -/
abbrev ParseResults := List ResultItem

/-- A parse failure: the description of what was expected and the character
offset at which matching failed (`ParseException.loc`). -/
structure ParseError where
  expected : String
  loc : Nat
  deriving Repr, DecidableEq

deriving instance DecidableEq for Except

/-- The default whitespace characters the library skips before a match. -/
def whiteChars : List Char := [' ', '\n', '\t']

/-- Number of leading whitespace characters of a character list. -/
def countLeadingWs : List Char → Nat
  | [] => 0
  | c :: cs => if whiteChars.contains c then countLeadingWs cs + 1 else 0

/-- Advance a position past whitespace. -/
def skipWs (l : List Char) (loc : Nat) : Nat :=
  loc + countLeadingWs (l.drop loc)

/-- The character class `pyparsing.alphas`. -/
def alphas : List Char :=
  "abcdefghijklmnopqrstuvwxyzABCDEFGHIJKLMNOPQRSTUVWXYZ".data

/-- The character class `pyparsing.nums`. -/
def nums : List Char := "0123456789".data

/-- The character class `pyparsing.alphanums`. -/
def alphanums : List Char := alphas ++ nums

/-- The grammar expressions used by the script. -/
inductive PExpr where
  | lit (s : String)
  | word (initChars bodyChars : List Char)
  | oneOfE (alts : List String)
  | quoted (quoteChar escChar : Char)
  | seq (a b : PExpr)
  | orElse (a b : PExpr)
  | suppress (a : PExpr)
  | named (a : PExpr) (name : String)
  | floatAction (a : PExpr)
  | stringEnd

/-- Rendering of the expected-text description for a set of alternative
keywords, as printed by the library for the type-keyword alternation:
`\x7b"float" | "double" | "int" | "unsigned"\x7d`. -/
def renderAlts (alts : List String) : String :=
  "\x7b" ++ String.intercalate " | " (alts.map (fun a => "\"" ++ a ++ "\"")) ++ "\x7d"

/-- Rendering of the expected-text description for a `Word`. -/
def renderWord (cs : List Char) : String :=
  "W:(" ++ String.mk cs ++ ")"

/-- Rendering of the expected-text description for a `QuotedString`. -/
def renderQuoted (q : Char) : String :=
  "quoted string starting with " ++ String.mk [q]

/-- Scan the body of a quoted string after the opening quote: plain
characters up to the closing quote, with `escChar` escaping the next
character (the escape is dropped from the produced content, exactly as the
library's unquoting does); newlines are not allowed inside.  Returns the
unescaped content and the number of input characters consumed, the closing
quote included. -/
def scanQuoted (q e : Char) : List Char → Option (List Char × Nat)
  | [] => none
  | c :: cs =>
    if c = q then some ([], 1)
    else if c = e then
      match cs with
      | [] => none
      | d :: ds => (scanQuoted q e ds).map (fun p => (d :: p.1, p.2 + 2))
    else if c = '\n' ∨ c = '\r' then none
    else (scanQuoted q e cs).map (fun p => (c :: p.1, p.2 + 1))

/-- Predicate for decimal digits. -/
def isDigit (c : Char) : Bool := nums.contains c

/-- Interpret a digit list as a natural number. -/
def natOfDigits (l : List Char) : Nat :=
  l.foldl (fun a c => a * 10 + (c.toNat - 48)) 0

/-- Split a character list at every dot. -/
def splitDot : List Char → List (List Char)
  | [] => [[]]
  | c :: cs =>
    if c = '.' then [] :: splitDot cs
    else
      match splitDot cs with
      | [] => [[c]]
      | h :: t => (c :: h) :: t

/-- The conversion performed by Python `float` on the strings matched by
`Word(nums+'.')`: an optional integer part, an optional dot, an optional
fractional part (with at least one digit present), read with exact decimal
semantics into a rational. -/
def parseFloat (s : String) : Option ℚ :=
  match splitDot s.data with
  | [a] =>
    if a ≠ [] ∧ a.all isDigit then some (natOfDigits a : ℚ)
    else none
  | [a, b] =>
    if (a ≠ [] ∨ b ≠ []) ∧ a.all isDigit ∧ b.all isDigit then
      some ((natOfDigits a : ℚ) + (natOfDigits b : ℚ) / (10 ^ b.length : ℚ))
    else none
  | _ => none

/-- Apply the float-converting parse action to the tokens matched by the
wrapped expression: every string token is replaced by its numeric value,
failing when the conversion fails. -/
def applyFloat : ParseResults → Option ParseResults
  | [] => some []
  | (Tok.str s, nm) :: rest =>
    match parseFloat s, applyFloat rest with
    | some q, some r => some ((Tok.num q, nm) :: r)
    | _, _ => none
  | (Tok.num q, nm) :: rest =>
    (applyFloat rest).map (fun r => (Tok.num q, nm) :: r)

/-- Evaluate a grammar expression on input `l` from position `loc`.
Returns the position after the match together with the produced tokens, or
the parse error.  Every leaf element first skips whitespace, as the
library's `preParse` does; alternation keeps, of two failures, the one
that got further into the input. -/
def parseAt : PExpr → List Char → Nat → Except ParseError (Nat × ParseResults)
  | .lit s, l, loc =>
    let loc := skipWs l loc
    if s.data.isPrefixOf (l.drop loc) then
      .ok (loc + s.length, [(.str s, none)])
    else
      .error ⟨"\"" ++ s ++ "\"", loc⟩
  | .word ic bc, l, loc =>
    let loc := skipWs l loc
    match l.drop loc with
    | [] => .error ⟨renderWord ic, loc⟩
    | c :: cs =>
      if ic.contains c then
        let body := cs.takeWhile bc.contains
        .ok (loc + 1 + body.length, [(.str (String.mk (c :: body)), none)])
      else
        .error ⟨renderWord ic, loc⟩
  | .oneOfE alts, l, loc =>
    let loc := skipWs l loc
    match alts.find? (fun a => a.data.isPrefixOf (l.drop loc)) with
    | some a => .ok (loc + a.length, [(.str a, none)])
    | none => .error ⟨renderAlts alts, loc⟩
  | .quoted q e, l, loc =>
    let loc := skipWs l loc
    match l.drop loc with
    | [] => .error ⟨renderQuoted q, loc⟩
    | c :: cs =>
      if c = q then
        match scanQuoted q e cs with
        | some (content, n) => .ok (loc + 1 + n, [(.str (String.mk content), none)])
        | none => .error ⟨renderQuoted q, loc⟩
      else
        .error ⟨renderQuoted q, loc⟩
  | .seq a b, l, loc =>
    match parseAt a l loc with
    | .error err => .error err
    | .ok (loc1, t1) =>
      match parseAt b l loc1 with
      | .error err => .error err
      | .ok (loc2, t2) => .ok (loc2, t1 ++ t2)
  | .orElse a b, l, loc =>
    match parseAt a l loc with
    | .ok r => .ok r
    | .error ea =>
      match parseAt b l loc with
      | .ok r => .ok r
      | .error eb => .error (if eb.loc > ea.loc then eb else ea)
  | .suppress a, l, loc =>
    (parseAt a l loc).map (fun r => (r.1, []))
  | .named a n, l, loc =>
    (parseAt a l loc).map (fun r => (r.1, r.2.map (fun p => (p.1, some n))))
  | .floatAction a, l, loc =>
    match parseAt a l loc with
    | .error err => .error err
    | .ok (loc1, toks) =>
      match applyFloat toks with
      | some toks2 => .ok (loc1, toks2)
      | none => .error ⟨"float conversion", loc1⟩
  | .stringEnd, l, loc =>
    let loc := skipWs l loc
    if l.drop loc = [] then .ok (loc, [])
    else .error ⟨"stringEnd", loc⟩

/-- The model of `expr.parseString(s)` with the default `parseAll=False`:
match from offset 0 and return the tokens, a trailing rest of the input
being allowed. -/
def parseString (e : PExpr) (s : String) : Except ParseError ParseResults :=
  (parseAt e s.data 0).map (fun r => r.2)

/-- The line number (1-based) reported for an error offset, as the library
computes it from the offset and the input. -/
def lineno (s : String) (loc : Nat) : Nat :=
  1 + ((s.data.take loc).filter (fun c => c = '\n')).length

/-- The column number (1-based) reported for an error offset, as the
library computes it from the offset and the input. -/
def colOf (s : String) (loc : Nat) : Nat :=
  (s.data.take loc).foldl (fun a c => if c = '\n' then 0 else a + 1) 0 + 1

/-- Named access into a parse result (`parse_result.name`): the token
carrying the given results name, when one exists.  Every results name used
by the script occurs at most once in each result. -/
def getNamed (r : ParseResults) (n : String) : Option Tok :=
  (r.find? (fun p => p.2 = some n)).map (fun p => p.1)

/-- The plain token list of a parse result, names forgotten. -/
def plainToks (r : ParseResults) : List Tok := r.map (fun p => p.1)

/-! The grammar expressions defined by the script, in source order. -/

/-- `type = oneOf(["float", "double", "int", "unsigned"])` (line 9). -/
def «type» : PExpr := .oneOfE ["float", "double", "int", "unsigned"]

/-- `identifier = Word(alphas, alphanums+'_')` (line 12). -/
def identifier : PExpr := .word alphas (alphanums ++ ['_'])

/-- `assignment = Literal("=")` (line 15). -/
def assignment : PExpr := .lit "="

/-- `number = Word(nums+".")` (line 18): a single character set used both
for the initial and the body characters. -/
def number : PExpr := .word (nums ++ ['.']) (nums ++ ['.'])

/-- `eos = Literal(";")` (line 21). -/
def eos : PExpr := .lit ";"

/-- `c_assignment = type + identifier + assignment + (number|identifier) + eos`
(line 24). -/
def c_assignment : PExpr :=
  .seq «type» (.seq identifier (.seq assignment (.seq (.orElse number identifier) eos)))

/-- The renamed grammar of lines 67 and 68: the same sequence with results
names `type`, `new_identifier` and `rhs` attached. -/
def c_assignment_named : PExpr :=
  .seq (.named «type» "type")
    (.seq (.named identifier "new_identifier")
      (.seq assignment
        (.seq (.named (.orElse number identifier) "rhs") eos)))

/-- `assignment = Suppress(Literal("="))` (line 82, also line 99). -/
def assignment_sup : PExpr := .suppress (.lit "=")

/-- `eos = Suppress(Literal(";"))` (line 83, also line 102). -/
def eos_sup : PExpr := .suppress (.lit ";")

/-- `cstatement = type + identifier + assignment + (number|identifier) + eos`
(line 84), with the suppressed punctuation. -/
def cstatement : PExpr :=
  .seq «type» (.seq identifier (.seq assignment_sup (.seq (.orElse number identifier) eos_sup)))

/-- `type_specifier = Literal("char*")` (line 97). -/
def type_specifier : PExpr := .lit "char*"

/-- `string = QuotedString('"', escChar='\\')` (line 101). -/
def cstring : PExpr := .quoted '"' '\\'

/-- `cstringdef = type_specifier + identifier + assignment + string + eos`
(line 103). -/
def cstringdef : PExpr :=
  .seq type_specifier (.seq identifier (.seq assignment_sup (.seq cstring eos_sup)))

/-- `number = Word(nums+'.').setParseAction(lambda t: float(t[0]))` (line 122). -/
def number_pa : PExpr := .floatAction (.word (nums ++ ['.']) (nums ++ ['.']))

/-- `cstatement = type + identifier + assignment + (number|identifier) + eos`
(line 123): the suppressed punctuation and the float-converting number. -/
def cstatement_pa : PExpr :=
  .seq «type» (.seq identifier (.seq assignment_sup (.seq (.orElse number_pa identifier) eos_sup)))

/-- `type = oneOf([...]).setResultsName("type")` (line 138). -/
def type_named : PExpr := .named «type» "type"

/-- `identifier = Word(alphas, alphanums+'_').setResultsName("identifier")`
(line 139). -/
def identifier_named : PExpr := .named identifier "identifier"

/-- `number = Word(nums+'.').setParseAction(...).setResultsName("number")`
(line 140). -/
def number_named : PExpr := .named number_pa "number"

/-- `cstatement = type + identifier + assignment + (number|identifier) + eos`
(line 141), built from the named elements of lines 138 to 140 and the
suppressed punctuation of lines 99 and 102. -/
def cstatement_named : PExpr :=
  .seq type_named
    (.seq identifier_named
      (.seq assignment_sup
        (.seq (.orElse number_named identifier_named) eos_sup)))

/-! The claims, settled on concrete inputs. -/

/-- The rational 3.14 written in the exact shape produced by `parseFloat`
on the matched text `3.14`. -/
theorem threePointFourteen_eq :
    (157 : ℚ)/50 =
      (natOfDigits ['3'] : ℚ) +
        (natOfDigits ['1', '4'] : ℚ) / (10 ^ (['1', '4'] : List Char).length : ℚ) := by
  rw [show natOfDigits ['3'] = 3 from by decide,
      show natOfDigits ['1', '4'] = 14 from by decide,
      show (['1', '4'] : List Char).length = 2 from rfl]
  norm_num

/-- C1: parsing the input `double x = 7;` with the `c_assignment` grammar
(type keyword, identifier, `=`, number-or-identifier, `;`) succeeds and
returns exactly the token list `double`, `x`, `=`, `7`, `;` in that order. -/
theorem c1_parse_simple_assignment :
    parseString c_assignment "double x = 7;" =
      .ok [(.str "double", none), (.str "x", none), (.str "=", none),
           (.str "7", none), (.str ";", none)] := by
  rfl

/-- C2: parsing the input `x=7` with the `c_assignment` grammar, which
requires a leading type keyword, fails with a parse error at character
offset 0 (line 1, column 1) whose expected-text names the four type
keywords. -/
theorem c2_missing_type_keyword_fails_at_zero :
    parseString c_assignment "x=7" =
      .error ⟨renderAlts ["float", "double", "int", "unsigned"], 0⟩ ∧
    lineno "x=7" 0 = 1 ∧ colOf "x=7" 0 = 1 := by
  exact ⟨rfl, rfl, rfl⟩

/-- C3: matching is whitespace-tolerant: parsing ` double x=7; ` (leading
and trailing spaces, no spaces around `=`) succeeds with the same token
list as parsing the canonically spaced `double x = 7;`. -/
theorem c3_whitespace_tolerant_matching :
    parseString c_assignment " double x=7; " = parseString c_assignment "double x = 7;" ∧
    parseString c_assignment " double x=7; " =
      .ok [(.str "double", none), (.str "x", none), (.str "=", none),
           (.str "7", none), (.str ";", none)] := by
  exact ⟨rfl, rfl⟩

/-- C4: a partial match succeeds unless an end-of-input anchor is added:
the `cstatement` grammar alone accepts `double x = 3.14; random
syntactically incorrect garbage` (matching only the leading statement),
while the grammar extended with `stringEnd` fails on `double x = 3.14;
random garbage` with an error at offset 17, the start of the trailing
garbage. -/
theorem c4_partial_match_vs_string_end :
    parseString cstatement_named "double x = 3.14; random syntactically incorrect garbage" =
      .ok [(.str "double", some "type"), (.str "x", some "identifier"),
           (.num ((157 : ℚ)/50), some "number")] ∧
    parseString (.seq cstatement_named .stringEnd) "double x = 3.14; random garbage" =
      .error ⟨"stringEnd", 17⟩ ∧
    String.mk (("double x = 3.14; random garbage".data).drop 17) = "random garbage" := by
  refine ⟨?_, by decide, rfl⟩
  rw [threePointFourteen_eq]
  rfl

/-- C5: a parse failure carries its position as character offset, line and
column: parsing the valid-C multi-declaration `double x = 7, y = 9;` with
the `c_assignment` grammar fails expecting `;` at character 12, which is
line 1, column 13. -/
theorem c5_multi_declaration_fails_expecting_semicolon :
    parseString c_assignment "double x = 7, y = 9;" = .error ⟨"\";\"", 12⟩ ∧
    lineno "double x = 7, y = 9;" 12 = 1 ∧ colOf "double x = 7, y = 9;" 12 = 13 := by
  exact ⟨rfl, rfl, rfl⟩

/-- C6: naming matched tokens gives structured access: after parsing
`double x = 7;` with the grammar carrying results names `type`,
`new_identifier` and `rhs`, named access yields `double`, `x` and `7`
respectively. -/
theorem c6_named_results_structured_access :
    parseString c_assignment_named "double x = 7;" =
      .ok [(.str "double", some "type"), (.str "x", some "new_identifier"),
           (.str "=", none), (.str "7", some "rhs"), (.str ";", none)] ∧
    (parseString c_assignment_named "double x = 7;").map (fun r => getNamed r "type") =
      .ok (some (.str "double")) ∧
    (parseString c_assignment_named "double x = 7;").map (fun r => getNamed r "new_identifier") =
      .ok (some (.str "x")) ∧
    (parseString c_assignment_named "double x = 7;").map (fun r => getNamed r "rhs") =
      .ok (some (.str "7")) := by
  exact ⟨rfl, rfl, rfl, rfl⟩

/-- C7: the parse action attached to the number token converts its matched
text to a float on match: parsing `double x = 3.14;` yields as third token
the numeric value 3.14 (modelled exactly as the rational 157/50), not the
string `3.14`, and doubling it gives 6.28. -/
theorem c7_parse_action_converts_to_float :
    parseString cstatement_pa "double x = 3.14;" =
      .ok [(.str "double", none), (.str "x", none), (.num ((157 : ℚ)/50), none)] ∧
    Tok.num ((157 : ℚ)/50) ≠ Tok.str "3.14" ∧
    ((157 : ℚ)/50) * 2 = 628/100 := by
  refine ⟨?_, by simp, by norm_num⟩
  rw [threePointFourteen_eq]
  rfl

/-- C8: wrapping the `=` and `;` literals in `Suppress` removes those
punctuation tokens from the result and leaves the remaining tokens
unchanged and in order: parsing `double x = 7;` with the suppressed
grammar returns exactly `double`, `x`, `7`, which is the unsuppressed
token list with the punctuation filtered out. -/
theorem c8_suppress_removes_punctuation :
    parseString cstatement "double x = 7;" =
      .ok [(.str "double", none), (.str "x", none), (.str "7", none)] ∧
    (parseString c_assignment "double x = 7;").map
        (fun r => (plainToks r).filter (fun t => decide (t ≠ Tok.str "=" ∧ t ≠ Tok.str ";"))) =
      (parseString cstatement "double x = 7;").map plainToks := by
  exact ⟨rfl, rfl⟩

/-- C9: nested-quote string extraction with escape handling: parsing the
raw input `char* s="he said \"hello friend!\"";` with the `cstringdef`
grammar succeeds and returns the string token `he said "hello friend!"`,
the surrounding quotes stripped and each escaped quote replaced by a
literal double-quote character. -/
theorem c9_quoted_string_with_escapes :
    parseString cstringdef "char* s=\"he said \\\"hello friend!\\\"\";" =
      .ok [(.str "char*", none), (.str "s", none),
           (.str "he said \"hello friend!\"", none)] := by
  rfl

/-- C10: the right-hand side of the assignment grammar is an alternation
of number or identifier: parsing `double x= y;` with the `c_assignment`
grammar succeeds and returns the token list `double`, `x`, `=`, `y`, `;`. -/
theorem c10_rhs_identifier_alternation :
    parseString c_assignment "double x= y;" =
      .ok [(.str "double", none), (.str "x", none), (.str "=", none),
           (.str "y", none), (.str ";", none)] := by
  rfl

end UsingPyparsing
